import Mathlib

/-
Shallow embedding of the core of talisik-short-url
(src/talisik/core/models.py, storage.py, shortener.py).

Modelling conventions:
- Instants (Python `datetime`) are integers counting milliseconds, so
  `timedelta(milliseconds=k)` is `+ k` and `timedelta(hours=h)` is
  `+ h * 3600000`.  `datetime.now(UTC)` becomes an explicit `now`
  argument threaded into each operation that reads the clock.
- `datetime.isoformat` is abstracted by an injective serialization of
  the instant (`isoformat` below); the claims never depend on the exact
  ISO-8601 text, only on which instant is serialized.
- The random sources (`secrets.choice` in `_generate_code`,
  `secrets.token_urlsafe` for the id) become explicit arguments:
  a stream `rand : Nat → Nat` of draws and a `newId : String`.
- The storage backend is the in-repo `MemoryStorage` (a Python dict
  keyed by `short_code`), modelled as a function `String → Option ShortURL`;
  dict mutation becomes functional update.
- The external `base64` and `json` library calls inside
  `_modify_downlodr_url` are parameters collected in `PayloadCodec`;
  each failure mode that the source absorbs is a `none` result.
- Python exceptions never escape the engine methods in the source
  (every public method body is wrapped in try/except returning a
  structured value); correspondingly each embedded operation is a total
  function returning its structured result and the new state.
-/

/-- Entity stored per short code — `ShortURL` dataclass in models.py.
`created_at` and `expires_at` are instants in milliseconds. -/
structure ShortURL where
  id : String
  original_url : String
  short_code : String
  created_at : Int
  expires_at : Option Int := none
  click_count : Nat := 0
  is_active : Bool := true
deriving Repr, DecidableEq

/-- Request model for URL shortening — `ShortenRequest` in models.py.
`expires_hours` is `Optional[int]` in the source. -/
structure ShortenRequest where
  url : String
  custom_code : Option String := none
  expires_hours : Option Int := none
deriving Repr, DecidableEq

/-- Response model for URL shortening — `ShortenResponse` in models.py. -/
structure ShortenResponse where
  short_url : String
  original_url : String
  short_code : String
  success : Bool := true
  error : Option String := none
  expires_at : Option Int := none
deriving Repr, DecidableEq

/-- `ShortenResponse.success_response` classmethod in models.py. -/
def ShortenResponse.success_response (short_url original_url short_code : String)
    (expires_at : Option Int) : ShortenResponse :=
  { short_url := short_url
    original_url := original_url
    short_code := short_code
    success := true
    error := none
    expires_at := expires_at }

/-- `ShortenResponse.error_response` classmethod in models.py.  The engine
always calls it with only `error` and `original_url`, so the other fields
keep their Python defaults (empty strings, expires_at None). -/
def ShortenResponse.error_response (error : String) (original_url : String) : ShortenResponse :=
  { short_url := ""
    original_url := original_url
    short_code := ""
    success := false
    error := some error
    expires_at := none }

/-- `MemoryStorage` in storage.py: the dict `self._urls` mapping a short
code to its `ShortURL`, modelled extensionally. -/
abbrev MemoryStorage := String → Option ShortURL

/-- `MemoryStorage.get`: `self._urls.get(short_code)`. -/
def MemoryStorage.get (st : MemoryStorage) (short_code : String) : Option ShortURL :=
  st short_code

/-- `MemoryStorage.set`: `self._urls[short_url.short_code] = short_url`. -/
def MemoryStorage.set (st : MemoryStorage) (short_url : ShortURL) : MemoryStorage :=
  fun c => if c = short_url.short_code then some short_url else st c

/-- `MemoryStorage.delete`: remove the key if present, reporting whether
anything was removed. -/
def MemoryStorage.delete (st : MemoryStorage) (short_code : String) : Bool × MemoryStorage :=
  match st short_code with
  | some _ => (true, fun c => if c = short_code then none else st c)
  | none => (false, st)

/-- `MemoryStorage.exists`: `short_code in self._urls`. -/
def MemoryStorage.exists (st : MemoryStorage) (short_code : String) : Bool :=
  (st short_code).isSome

/-- `MemoryStorage.update_click_count`: in-place
`self._urls[short_code].click_count += 1`, returning the new count, or
`None` when the code is absent.  The returned state is the dict after the
mutation. -/
def MemoryStorage.update_click_count (st : MemoryStorage) (short_code : String) :
    Option Nat × MemoryStorage :=
  match st short_code with
  | some u =>
      let u2 : ShortURL := { u with click_count := u.click_count + 1 }
      (some u2.click_count, fun c => if c = short_code then some u2 else st c)
  | none => (none, st)

/-- Python `a or b` for `a : Optional[str]`: `None` and the empty string
are falsy, any other string is returned unchanged.  Used for
`short_code = request.custom_code or self._generate_code()`. -/
def pyOr (a : Option String) (b : String) : String :=
  match a with
  | none => b
  | some s => if s = "" then b else s

/-- First position of `needle` in `hay` (Python `str.find` as an Option). -/
def strFind (needle : List Char) : List Char → Option Nat
  | [] => if needle = [] then some 0 else none
  | c :: rest =>
      if needle.isPrefixOf (c :: rest) then some 0
      else (strFind needle rest).map (· + 1)

/-- Python substring containment `needle in hay`. -/
def strContains (hay needle : List Char) : Bool :=
  (strFind needle hay).isSome

/-- Scheme characters accepted by `urllib.parse` after the first letter. -/
def schemeChar (ch : Char) : Bool :=
  ch.isAlphanum || ch = '+' || ch = '-' || ch = '.'

/-- First position of a character (used to find the scheme separator). -/
def findChar (ch : Char) : List Char → Option Nat
  | [] => none
  | c :: rest => if c = ch then some 0 else (findChar ch rest).map (· + 1)

/-- Scheme splitting of `urllib.parse.urlparse`: if the text before the
first colon is a wellformed scheme (a letter followed by scheme
characters), return it with the remainder, else no scheme. -/
def urlparseScheme (l : List Char) : List Char × List Char :=
  match findChar ':' l with
  | none => ([], l)
  | some i =>
      match l.take i with
      | [] => ([], l)
      | c0 :: restPre =>
          if c0.isAlpha && restPre.all schemeChar then (l.take i, l.drop (i + 1))
          else ([], l)

/-- Netloc extraction of `urllib.parse.urlparse`: present exactly when the
remainder after the scheme starts with two slashes, extending to the next
slash, question mark or hash. -/
def urlparseNetloc (rest : List Char) : List Char :=
  match rest with
  | '/' :: '/' :: t => t.takeWhile (fun ch => !(ch = '/' || ch = '?' || ch = '#'))
  | _ => []

/-- Abstraction of `datetime.isoformat`: an injective serialization of the
instant.  The claims only depend on which instant is serialized, never on
the concrete ISO-8601 text. -/
def isoformat (t : Int) : String :=
  toString t

/-- Result of `json.loads` on the decoded shareId payload, as far as
`_modify_downlodr_url` observes it: either the parse fails
(`json.JSONDecodeError`), or it yields a non-dict value (a subsequent key
assignment raises TypeError, absorbed by the outer except), or a dict
whose optional member `"url"` is carried abstractly (its absence raises
KeyError at `payload['url']`, also absorbed by the outer except). -/
inductive JsonValue where
  | nonObject : JsonValue
  | object (urlField : Option String) : JsonValue
deriving Repr, DecidableEq

/-- The external `base64`/`json` library calls used by
`_modify_downlodr_url`, as parameters of the embedding:
`b64decode s` is `base64.b64decode(s).decode('utf-8')` with `none` for
`binascii.Error`/`UnicodeDecodeError`; `jsonLoads` is `json.loads` with
`none` for `json.JSONDecodeError`; `b64encode` is
`base64.b64encode(·.encode('utf-8')).decode('utf-8')` (total);
`dumpsUrlExpiry u e` is `json.dumps({"url": u, "expiresAt": e})`. -/
structure PayloadCodec where
  b64decode : String → Option String
  jsonLoads : String → Option JsonValue
  b64encode : String → String
  dumpsUrlExpiry : String → String → String

/-- The marker substring checked by `_modify_downlodr_url`. -/
def markerStr : List Char :=
  "downlodr.com/share-video/?shareId=".toList

/-- The key searched with `url.find("shareId=")`. -/
def shareIdKey : List Char :=
  "shareId=".toList

/-- The fixed prefix used to reconstruct the rewritten URL. -/
def rebuiltPrefix : String :=
  "https://downlodr.com/share-video/?shareId="

/-- `encoded_share_id = url[url.find("shareId=") + 8:]`.  Python `find`
returns -1 when absent, making the start 7; that case is unreachable
under the marker guard, which guarantees an occurrence. -/
def shareIdSegment (url : String) : String :=
  List.asString (url.toList.drop (((strFind shareIdKey url.toList).map (· + 8)).getD 7))

/-- Engine state: base URL, configured default code length, and the
storage backend (`MemoryStorage`). -/
structure URLShortener where
  base_url : String
  default_code_length : Nat
  storage : MemoryStorage

/-- `URLShortener._modify_downlodr_url`: rewrite downlodr share URLs.
Matches the source branch for branch: no marker, or no expiration, pass
the URL through; decode then parse the segment after `shareId=`, on any
absorbed failure pass the URL through; otherwise re-encode a payload
holding only the original `url` member and `expiresAt` set to the
serialized engine expiration and rebuild from the fixed prefix. -/
def URLShortener._modify_downlodr_url (c : PayloadCodec) (url : String)
    (expires_at : Option Int) : String :=
  if !strContains url.toList markerStr then url
  else
    match expires_at with
    | none => url
    | some t =>
        match c.b64decode (shareIdSegment url) with
        | none => url
        | some decoded =>
            match c.jsonLoads decoded with
            | none => url
            | some .nonObject => url
            | some (.object none) => url
            | some (.object (some u)) =>
                rebuiltPrefix ++ c.b64encode (c.dumpsUrlExpiry u (isoformat t))

/-- Alphabet of `_generate_code`: `string.ascii_letters + string.digits`. -/
def alphabetChars : List Char :=
  "abcdefghijklmnopqrstuvwxyzABCDEFGHIJKLMNOPQRSTUVWXYZ0123456789".toList

/-- `URLShortener._generate_code`: `secrets.choice(alphabet)` repeated
`code_length` times; the stream `rand` supplies the draws, reduced
modulo the alphabet size. -/
def URLShortener._generate_code (code_length : Nat) (rand : Nat → Nat) : String :=
  List.asString ((List.range code_length).map
    (fun i => alphabetChars.getD (rand i % alphabetChars.length) ' '))

/-- `URLShortener._is_valid_url`: `urlparse(url)` then
`all([result.scheme, result.netloc])`. -/
def URLShortener._is_valid_url (url : String) : Bool :=
  let p := urlparseScheme url.toList
  !p.1.isEmpty && !(urlparseNetloc p.2).isEmpty

/-- The conflict message `f"Short code '{short_code}' already exists"`. -/
def conflictMsg (short_code : String) : String :=
  "Short code \x27" ++ short_code ++ "\x27 already exists"

/-- The expiration computed by `shorten`: `None` when `expires_hours` is
falsy (Python: `None` or `0`), otherwise the source adds
`timedelta(milliseconds=request.expires_hours)` to `datetime.now(UTC)`,
which in the millisecond time scale is `now + h`. -/
def expiryOf (now : Int) (expires_hours : Option Int) : Option Int :=
  match expires_hours with
  | none => none
  | some h => if h = 0 then none else some (now + h)

/-- `URLShortener.shorten`.  Follows the source line by line: validate the
URL; compute `expires_at` — the source adds
`timedelta(milliseconds=request.expires_hours)` when the field is truthy
(nonzero), which in milliseconds is `now + h`; rewrite downlodr URLs;
resolve the short code with Python `or`; reject on conflict; otherwise
build and store the entity and return the success response. -/
def URLShortener.shorten (c : PayloadCodec) (s : URLShortener) (rand : Nat → Nat)
    (newId : String) (now : Int) (request : ShortenRequest) :
    ShortenResponse × URLShortener :=
  if !URLShortener._is_valid_url request.url then
    (ShortenResponse.error_response "Invalid URL provided" request.url, s)
  else
    let expires_at : Option Int := expiryOf now request.expires_hours
    let modified_url := URLShortener._modify_downlodr_url c request.url expires_at
    let short_code := pyOr request.custom_code
      (URLShortener._generate_code s.default_code_length rand)
    if MemoryStorage.exists s.storage short_code then
      (ShortenResponse.error_response (conflictMsg short_code) request.url, s)
    else
      let obj : ShortURL :=
        { id := newId
          original_url := modified_url
          short_code := short_code
          created_at := now
          expires_at := expires_at }
      (ShortenResponse.success_response (s.base_url ++ "/" ++ short_code)
          modified_url short_code expires_at,
       { s with storage := MemoryStorage.set s.storage obj })

/-- `URLShortener.expand`: fetch; return `None` when absent, when
`expires_at` is set and `now` is past it, or when inactive; otherwise
increment the click count through the backend and return the stored
destination. -/
def URLShortener.expand (s : URLShortener) (now : Int) (short_code : String) :
    Option String × URLShortener :=
  match MemoryStorage.get s.storage short_code with
  | none => (none, s)
  | some u =>
      if (match u.expires_at with | some e => decide (now > e) | none => false) then (none, s)
      else if !u.is_active then (none, s)
      else
        let r := MemoryStorage.update_click_count s.storage short_code
        (some u.original_url, { s with storage := r.2 })

/-- The dict returned by `URLShortener.get_info`. -/
structure InfoDict where
  short_code : String
  original_url : String
  created_at : String
  expires_at : Option String
  click_count : Nat
  is_active : Bool
  is_expired : Bool
deriving Repr, DecidableEq

/-- `URLShortener.get_info`: fetch and report the stored state without
redirecting; `is_expired` evaluates the same expiry predicate as
`expand`.  The method performs no storage mutation, so the state it
returns is the state it was given. -/
def URLShortener.get_info (s : URLShortener) (now : Int) (short_code : String) :
    Option InfoDict × URLShortener :=
  match MemoryStorage.get s.storage short_code with
  | none => (none, s)
  | some u =>
      (some
        { short_code := short_code
          original_url := u.original_url
          created_at := isoformat u.created_at
          expires_at := u.expires_at.map isoformat
          click_count := u.click_count
          is_active := u.is_active
          is_expired := match u.expires_at with | some e => decide (now > e) | none => false },
       s)

/-- `URLShortener.delete`: hard removal through the backend. -/
def URLShortener.delete (s : URLShortener) (short_code : String) :
    Bool × URLShortener :=
  let r := MemoryStorage.delete s.storage short_code
  (r.1, { s with storage := r.2 })

/-- `URLShortener.deactivate`: fetch, flip `is_active` to false, persist
the full updated entity; false when absent. -/
def URLShortener.deactivate (s : URLShortener) (short_code : String) :
    Bool × URLShortener :=
  match MemoryStorage.get s.storage short_code with
  | none => (false, s)
  | some u =>
      (true, { s with storage := MemoryStorage.set s.storage { u with is_active := false } })

/-- A concrete codec whose decode always fails, exercising the absorbed
failure paths of the rewriter on concrete inputs. -/
def codec0 : PayloadCodec :=
  { b64decode := fun _ => none
    jsonLoads := fun _ => none
    b64encode := fun s => s
    dumpsUrlExpiry := fun u e => u ++ "|" ++ e }

/-- A concrete codec that decodes every segment to a JSON object carrying
a url member, for exercising the rewrite path on concrete inputs. -/
def codec1 : PayloadCodec :=
  { b64decode := fun s => some s
    jsonLoads := fun _ => some (JsonValue.object (some "https://cdn.example/video"))
    b64encode := fun s => s
    dumpsUrlExpiry := fun u e => u ++ "|" ++ e }

/-- An engine over empty storage. -/
def engine0 : URLShortener :=
  { base_url := "http://localhost:8000", default_code_length := 7, storage := fun _ => none }

/-- A stored entry with no expiration, active, zero clicks. -/
def entry0 : ShortURL :=
  { id := "e0", original_url := "https://stored.example", short_code := "abc", created_at := 0 }

/-- An engine whose storage holds `entry0` under the code "abc". -/
def engine1 : URLShortener :=
  { base_url := "http://localhost:8000", default_code_length := 7
    storage := fun c => if c = "abc" then some entry0 else none }

/-- Reading back the key just written by `set` yields the new entry. -/
theorem MemoryStorage.get_set_self (st : MemoryStorage) (u : ShortURL) :
    MemoryStorage.set st u u.short_code = some u := by
  simp [MemoryStorage.set]

/-- Without the marker substring, the rewriter is the identity. -/
theorem modify_no_marker (c : PayloadCodec) (url : String) (e : Option Int)
    (h : strContains url.toList markerStr = false) :
    URLShortener._modify_downlodr_url c url e = url := by
  have h2 : strContains url.data markerStr = false := h
  simp [URLShortener._modify_downlodr_url, h2]

/-- `expand` on a live entry (present, unexpired, active): it returns the
stored destination and the state where only that entry's click count has
been bumped. -/
theorem expand_live (s : URLShortener) (now : Int) (code : String) (u : ShortURL)
    (hget : s.storage code = some u)
    (hexp : ∀ e, u.expires_at = some e → now ≤ e)
    (hact : u.is_active = true) :
    URLShortener.expand s now code
      = (some u.original_url,
         { s with storage := fun c =>
             if c = code then some { u with click_count := u.click_count + 1 }
             else s.storage c }) := by
  cases hu : u.expires_at with
  | none =>
      simp [URLShortener.expand, MemoryStorage.get, MemoryStorage.update_click_count,
        hget, hact, hu]
  | some e =>
      have hle : now ≤ e := hexp e hu
      simp [URLShortener.expand, MemoryStorage.get, MemoryStorage.update_click_count,
        hget, hact, hu, not_lt.mpr hle]

/-- `shorten` on a valid URL with a fresh resolved code: the success
response and the state extended with the new entry. -/
theorem shorten_success_eq (c : PayloadCodec) (s : URLShortener) (rand : Nat → Nat)
    (newId : String) (now : Int) (req : ShortenRequest)
    (hvalid : URLShortener._is_valid_url req.url = true)
    (hfresh : MemoryStorage.exists s.storage
        (pyOr req.custom_code (URLShortener._generate_code s.default_code_length rand)) = false) :
    URLShortener.shorten c s rand newId now req =
      (ShortenResponse.success_response
          (s.base_url ++ "/" ++ pyOr req.custom_code (URLShortener._generate_code s.default_code_length rand))
          (URLShortener._modify_downlodr_url c req.url (expiryOf now req.expires_hours))
          (pyOr req.custom_code (URLShortener._generate_code s.default_code_length rand))
          (expiryOf now req.expires_hours),
       { s with storage := (MemoryStorage.set s.storage
           (ShortURL.mk newId
             (URLShortener._modify_downlodr_url c req.url (expiryOf now req.expires_hours))
             (pyOr req.custom_code (URLShortener._generate_code s.default_code_length rand))
             now (expiryOf now req.expires_hours) 0 true)) }) := by
  simp [URLShortener.shorten, hvalid, hfresh]

/-- Claim C1: the spec states that a positive `expires_hours = h` yields
`expires_at` equal to the creation-time clock reading plus `h` hours.
The source instead computes
`datetime.now(UTC) + timedelta(milliseconds=request.expires_hours)`, so
at `now = 0` with `expires_hours = 1` the returned (and stored)
expiration is instant 1 — one millisecond after creation — whereas one
hour after creation is instant 3600000. -/
theorem C1_expires_at_uses_milliseconds :
    (URLShortener.shorten codec0 engine0 (fun i => i) "id0" 0
        { url := "https://example.com", custom_code := some "abc", expires_hours := some 1 }).1.expires_at
      = some 1
    ∧ (some ((1 : Int)) : Option Int) ≠ some ((0 : Int) + 1 * 3600000) := by
  refine ⟨by decide, by decide⟩

/-- Claim C3: `expand` returns the same `None` outcome — and leaves the
state untouched — whether the code is absent, the entry has an
`expires_at` strictly before `now`, or the entry is inactive; the three
cases are indistinguishable to the caller. -/
theorem C3_expand_uniform_not_found (s : URLShortener) (now : Int) (code : String)
    (h : s.storage code = none
       ∨ (∃ u e, s.storage code = some u ∧ u.expires_at = some e ∧ e < now)
       ∨ (∃ u, s.storage code = some u ∧ u.is_active = false)) :
    URLShortener.expand s now code = (none, s) := by
  rcases h with h | ⟨u, e, hget, hexp, hlt⟩ | ⟨u, hget, hact⟩
  · simp [URLShortener.expand, MemoryStorage.get, h]
  · simp [URLShortener.expand, MemoryStorage.get, hget, hexp, hlt]
  · unfold URLShortener.expand MemoryStorage.get
    rw [hget]
    by_cases hb : (match u.expires_at with | some e => decide (now > e) | none => false) = true
    · simp [hb]
    · simp [hb, hact]

/-- Concrete instance of C3: expanding an absent code in the empty-storage
engine returns `None` and leaves the engine unchanged. -/
theorem C3_witness :
    URLShortener.expand engine0 0 "x" = (none, engine0) :=
  C3_expand_uniform_not_found engine0 0 "x" (Or.inl rfl)

/-- Claim C4: shortening a valid URL with a (nonempty) custom code that is
already present rejects with the structured conflict failure and returns
the state unchanged — in particular the existing entry under that code is
exactly as before. -/
theorem C4_conflict_rejected_state_unchanged (c : PayloadCodec) (s : URLShortener)
    (rand : Nat → Nat) (newId : String) (now : Int) (req : ShortenRequest) (cc : String)
    (hvalid : URLShortener._is_valid_url req.url = true)
    (hcc : req.custom_code = some cc) (hne : cc ≠ "")
    (hex : MemoryStorage.exists s.storage cc = true) :
    URLShortener.shorten c s rand newId now req
      = (ShortenResponse.error_response (conflictMsg cc) req.url, s) := by
  have hpy : pyOr req.custom_code (URLShortener._generate_code s.default_code_length rand) = cc := by
    simp [pyOr, hcc, hne]
  simp [URLShortener.shorten, hvalid, hpy, hex]

/-- Concrete instance of C4: the engine holding `entry0` under "abc"
rejects a second shorten with custom code "abc" and is unchanged. -/
theorem C4_witness :
    URLShortener.shorten codec0 engine1 (fun i => i) "id0" 0
        { url := "https://example.com", custom_code := some "abc", expires_hours := none }
      = (ShortenResponse.error_response (conflictMsg "abc") "https://example.com", engine1) :=
  C4_conflict_rejected_state_unchanged codec0 engine1 (fun i => i) "id0" 0
    { url := "https://example.com", custom_code := some "abc", expires_hours := none }
    "abc" (by decide) rfl (by decide) rfl

/-- Claim C6: the rewriter passes the URL through unchanged when the
marker is absent, or the expiration is null, or the base64 decode fails,
or the decoded text is not valid JSON; being a total function, no
exception escapes it. -/
theorem C6_rewriter_absorbs_failures (c : PayloadCodec) (url : String) (e : Option Int)
    (h : strContains url.toList markerStr = false
       ∨ e = none
       ∨ c.b64decode (shareIdSegment url) = none
       ∨ ∃ d, c.b64decode (shareIdSegment url) = some d ∧ c.jsonLoads d = none) :
    URLShortener._modify_downlodr_url c url e = url := by
  rcases h with h | h | h | ⟨d, hd, hj⟩
  · exact modify_no_marker c url e h
  · subst h
    simp [URLShortener._modify_downlodr_url]
  · by_cases hm : strContains url.toList markerStr = true
    · have hm2 : strContains url.data markerStr = true := hm
      cases e with
      | none => simp [URLShortener._modify_downlodr_url]
      | some t => simp [URLShortener._modify_downlodr_url, hm2, h]
    · exact modify_no_marker c url e (by simpa using hm)
  · by_cases hm : strContains url.toList markerStr = true
    · have hm2 : strContains url.data markerStr = true := hm
      cases e with
      | none => simp [URLShortener._modify_downlodr_url]
      | some t => simp [URLShortener._modify_downlodr_url, hm2, hd, hj]
    · exact modify_no_marker c url e (by simpa using hm)

/-- Concrete instance of C6: with a codec whose base64 decode fails, a
marker-bearing URL with an expiration passes through unchanged. -/
theorem C6_witness :
    URLShortener._modify_downlodr_url codec0
        "https://downlodr.com/share-video/?shareId=QUJD" (some 5)
      = "https://downlodr.com/share-video/?shareId=QUJD" :=
  C6_rewriter_absorbs_failures codec0
    "https://downlodr.com/share-video/?shareId=QUJD" (some 5)
    (Or.inr (Or.inr (Or.inl rfl)))

/-- Claim C7: when the marker is present, the segment decodes, and the
JSON is an object with a url member, the rewriter outputs the fixed
prefix followed by the base64 encoding of the JSON object holding only
the original url member and an `expiresAt` set to the serialized
engine-computed expiration. -/
theorem C7_rewriter_rebuilds_url (c : PayloadCodec) (url : String) (t : Int) (d u : String)
    (hmark : strContains url.toList markerStr = true)
    (hdec : c.b64decode (shareIdSegment url) = some d)
    (hjson : c.jsonLoads d = some (JsonValue.object (some u))) :
    URLShortener._modify_downlodr_url c url (some t)
      = rebuiltPrefix ++ c.b64encode (c.dumpsUrlExpiry u (isoformat t)) := by
  have hm2 : strContains url.data markerStr = true := hmark
  simp [URLShortener._modify_downlodr_url, hm2, hdec, hjson]

/-- Concrete instance of C7: a codec decoding to an object with a url
member rewrites a marker-bearing URL to the rebuilt form. -/
theorem C7_witness :
    URLShortener._modify_downlodr_url codec1
        "https://downlodr.com/share-video/?shareId=QUJD" (some 5)
      = rebuiltPrefix ++ codec1.b64encode
          (codec1.dumpsUrlExpiry "https://cdn.example/video" (isoformat 5)) :=
  C7_rewriter_rebuilds_url codec1 "https://downlodr.com/share-video/?shareId=QUJD" 5
    "QUJD" "https://cdn.example/video" (by decide) rfl rfl

/-- Expanding a live entry twice returns the stored destination both
times: the click increment leaves the destination, expiry and active
flag unchanged. -/
theorem expand_twice_of_live (s1 : URLShortener) (obj : ShortURL) (now2 now3 : Int)
    (hget : s1.storage obj.short_code = some obj)
    (hexp : obj.expires_at = none) (hact : obj.is_active = true) :
    (URLShortener.expand s1 now2 obj.short_code).1 = some obj.original_url
    ∧ (URLShortener.expand (URLShortener.expand s1 now2 obj.short_code).2 now3
         obj.short_code).1 = some obj.original_url := by
  have h1 := expand_live s1 now2 obj.short_code obj hget
    (fun e he => Option.noConfusion (hexp ▸ he)) hact
  constructor
  · rw [h1]
  · rw [h1]
    have hget2 : (fun c => if c = obj.short_code
          then some { obj with click_count := obj.click_count + 1 }
          else s1.storage c) obj.short_code
        = some { obj with click_count := obj.click_count + 1 } := by simp
    have h2 := expand_live
      { s1 with storage := (fun c => if c = obj.short_code
          then some { obj with click_count := obj.click_count + 1 }
          else s1.storage c) }
      now3 obj.short_code
      { obj with click_count := obj.click_count + 1 } hget2
      (fun e he => Option.noConfusion (hexp ▸ he)) hact
    rw [h2]

/-- Claim C2: for a valid URL without the embedded-payload marker, with a
fresh resolved code and no expiration, shortening succeeds and expanding
the returned code — once, and again after the click increment — returns
exactly the original URL. -/
theorem C2_shorten_expand_roundtrip (c : PayloadCodec) (s : URLShortener)
    (rand : Nat → Nat) (newId : String) (now now2 now3 : Int) (req : ShortenRequest)
    (hvalid : URLShortener._is_valid_url req.url = true)
    (hmark : strContains req.url.toList markerStr = false)
    (hexp : req.expires_hours = none ∨ req.expires_hours = some 0)
    (hfresh : MemoryStorage.exists s.storage
        (pyOr req.custom_code (URLShortener._generate_code s.default_code_length rand)) = false) :
    (URLShortener.shorten c s rand newId now req).1.success = true
    ∧ (URLShortener.expand (URLShortener.shorten c s rand newId now req).2 now2
         (URLShortener.shorten c s rand newId now req).1.short_code).1 = some req.url
    ∧ (URLShortener.expand
         (URLShortener.expand (URLShortener.shorten c s rand newId now req).2 now2
           (URLShortener.shorten c s rand newId now req).1.short_code).2 now3
         (URLShortener.shorten c s rand newId now req).1.short_code).1 = some req.url := by
  have hmod : URLShortener._modify_downlodr_url c req.url (expiryOf now req.expires_hours)
      = req.url := modify_no_marker c req.url _ hmark
  have hnone : expiryOf now req.expires_hours = none := by
    rcases hexp with h | h <;> simp [expiryOf, h]
  rw [shorten_success_eq c s rand newId now req hvalid hfresh, hmod, hnone]
  have hr := expand_twice_of_live
    { s with storage := (MemoryStorage.set s.storage
        (ShortURL.mk newId req.url
          (pyOr req.custom_code (URLShortener._generate_code s.default_code_length rand))
          now none 0 true)) }
    (ShortURL.mk newId req.url
      (pyOr req.custom_code (URLShortener._generate_code s.default_code_length rand))
      now none 0 true)
    now2 now3 (MemoryStorage.get_set_self s.storage _) rfl rfl
  exact ⟨rfl, hr.1, hr.2⟩

/-- Concrete instance of C2: shortening a plain URL over empty storage and
expanding the returned code twice yields the original URL both times. -/
theorem C2_witness :
    (URLShortener.shorten codec0 engine0 (fun i => i) "id0" 0
        { url := "https://example.com", custom_code := some "abc", expires_hours := none }).1.success = true
    ∧ (URLShortener.expand
         (URLShortener.shorten codec0 engine0 (fun i => i) "id0" 0
           { url := "https://example.com", custom_code := some "abc", expires_hours := none }).2 1
         (URLShortener.shorten codec0 engine0 (fun i => i) "id0" 0
           { url := "https://example.com", custom_code := some "abc", expires_hours := none }).1.short_code).1
        = some "https://example.com"
    ∧ (URLShortener.expand
         (URLShortener.expand
           (URLShortener.shorten codec0 engine0 (fun i => i) "id0" 0
             { url := "https://example.com", custom_code := some "abc", expires_hours := none }).2 1
           (URLShortener.shorten codec0 engine0 (fun i => i) "id0" 0
             { url := "https://example.com", custom_code := some "abc", expires_hours := none }).1.short_code).2 2
         (URLShortener.shorten codec0 engine0 (fun i => i) "id0" 0
           { url := "https://example.com", custom_code := some "abc", expires_hours := none }).1.short_code).1
        = some "https://example.com" :=
  C2_shorten_expand_roundtrip codec0 engine0 (fun i => i) "id0" 0 1 2
    { url := "https://example.com", custom_code := some "abc", expires_hours := none }
    (by decide) (by decide) (Or.inl rfl) rfl

/-- Claim C5: a successful `expand` stores back the resolved entry with
its click count incremented by exactly one and every other field
unchanged, leaves every other key untouched, and `get_info` returns the
state it was given for every code. -/
theorem C5_click_increment_and_info_pure (s : URLShortener) (now : Int) (code : String)
    (u : ShortURL) (hget : s.storage code = some u)
    (hexp : ∀ e, u.expires_at = some e → now ≤ e)
    (hact : u.is_active = true) :
    ((URLShortener.expand s now code).2.storage code
        = some { u with click_count := u.click_count + 1 }
      ∧ ∀ c2, c2 ≠ code → (URLShortener.expand s now code).2.storage c2 = s.storage c2)
    ∧ ∀ (s2 : URLShortener) (now2 : Int) (code2 : String),
        (URLShortener.get_info s2 now2 code2).2 = s2 := by
  have h1 := expand_live s now code u hget hexp hact
  refine ⟨⟨?_, ?_⟩, ?_⟩
  · rw [h1]
    simp
  · intro c2 hc2
    rw [h1]
    simp [hc2]
  · intro s2 now2 code2
    unfold URLShortener.get_info MemoryStorage.get
    cases s2.storage code2 with
    | none => rfl
    | some u2 => rfl

/-- Concrete instance of C5: expanding "abc" in the engine holding
`entry0` bumps its click count to 1 and touches nothing else; `get_info`
never changes the state. -/
theorem C5_witness :
    ((URLShortener.expand engine1 0 "abc").2.storage "abc"
        = some { entry0 with click_count := entry0.click_count + 1 }
      ∧ ∀ c2, c2 ≠ "abc" → (URLShortener.expand engine1 0 "abc").2.storage c2
          = engine1.storage c2)
    ∧ ∀ (s2 : URLShortener) (now2 : Int) (code2 : String),
        (URLShortener.get_info s2 now2 code2).2 = s2 :=
  C5_click_increment_and_info_pure engine1 0 "abc" entry0 rfl
    (fun _ he => Option.noConfusion he) rfl

/-- Claim C8: when `expires_hours` is `None` or `0`, the response and any
newly stored entry carry a null `expires_at`; and an entry with null
`expires_at` is never treated as expired — `expand` resolves it (when
active) and `get_info` reports `is_expired = false`. -/
theorem C8_null_expiry_never_expires (c : PayloadCodec) (s : URLShortener)
    (rand : Nat → Nat) (newId : String) (now : Int) (req : ShortenRequest)
    (h : req.expires_hours = none ∨ req.expires_hours = some 0) :
    ((URLShortener.shorten c s rand newId now req).1.expires_at = none
      ∧ ((URLShortener.shorten c s rand newId now req).1.success = true →
          ∃ u, (URLShortener.shorten c s rand newId now req).2.storage
                  (URLShortener.shorten c s rand newId now req).1.short_code = some u
              ∧ u.expires_at = none))
    ∧ (∀ (s2 : URLShortener) (now2 : Int) (code : String) (u : ShortURL),
          s2.storage code = some u → u.expires_at = none → u.is_active = true →
          (URLShortener.expand s2 now2 code).1 = some u.original_url)
    ∧ (∀ (s2 : URLShortener) (now2 : Int) (code : String) (u : ShortURL),
          s2.storage code = some u → u.expires_at = none →
          Option.map InfoDict.is_expired (URLShortener.get_info s2 now2 code).1
            = some false) := by
  have hnone : expiryOf now req.expires_hours = none := by
    rcases h with h | h <;> simp [expiryOf, h]
  refine ⟨?_, ?_, ?_⟩
  · by_cases hv : URLShortener._is_valid_url req.url = true
    · by_cases hf : MemoryStorage.exists s.storage
          (pyOr req.custom_code (URLShortener._generate_code s.default_code_length rand)) = true
      · have heq : URLShortener.shorten c s rand newId now req
            = (ShortenResponse.error_response
                (conflictMsg (pyOr req.custom_code
                  (URLShortener._generate_code s.default_code_length rand))) req.url, s) := by
          simp [URLShortener.shorten, hv, hf]
        rw [heq]
        exact ⟨rfl, fun hs => (Bool.false_ne_true hs).elim⟩
      · have hf2 : MemoryStorage.exists s.storage
            (pyOr req.custom_code (URLShortener._generate_code s.default_code_length rand)) = false := by
          simpa using hf
        rw [shorten_success_eq c s rand newId now req hv hf2, hnone]
        refine ⟨rfl, fun _ => ⟨ShortURL.mk newId
          (URLShortener._modify_downlodr_url c req.url none)
          (pyOr req.custom_code (URLShortener._generate_code s.default_code_length rand))
          now none 0 true, ?_, rfl⟩⟩
        exact MemoryStorage.get_set_self s.storage
          (ShortURL.mk newId (URLShortener._modify_downlodr_url c req.url none)
            (pyOr req.custom_code (URLShortener._generate_code s.default_code_length rand))
            now none 0 true)
    · have hv2 : URLShortener._is_valid_url req.url = false := by simpa using hv
      have heq : URLShortener.shorten c s rand newId now req
          = (ShortenResponse.error_response "Invalid URL provided" req.url, s) := by
        simp [URLShortener.shorten, hv2]
      rw [heq]
      exact ⟨rfl, fun hs => (Bool.false_ne_true hs).elim⟩
  · intro s2 now2 code u hget hN hact
    have he := expand_live s2 now2 code u hget
      (fun e he => Option.noConfusion (hN ▸ he)) hact
    rw [he]
  · intro s2 now2 code u hget hN
    unfold URLShortener.get_info MemoryStorage.get
    rw [hget]
    simp [hN]

/-- Concrete instance of C8: shortening with no expiration over empty
storage yields a null expiration in the response and store; null-expiry
entries resolve and report not expired. -/
theorem C8_witness :
    ((URLShortener.shorten codec0 engine0 (fun i => i) "id0" 0
          { url := "https://example.com", custom_code := none, expires_hours := none }).1.expires_at = none
      ∧ ((URLShortener.shorten codec0 engine0 (fun i => i) "id0" 0
            { url := "https://example.com", custom_code := none, expires_hours := none }).1.success = true →
          ∃ u, (URLShortener.shorten codec0 engine0 (fun i => i) "id0" 0
                  { url := "https://example.com", custom_code := none, expires_hours := none }).2.storage
                  (URLShortener.shorten codec0 engine0 (fun i => i) "id0" 0
                    { url := "https://example.com", custom_code := none, expires_hours := none }).1.short_code = some u
              ∧ u.expires_at = none))
    ∧ (∀ (s2 : URLShortener) (now2 : Int) (code : String) (u : ShortURL),
          s2.storage code = some u → u.expires_at = none → u.is_active = true →
          (URLShortener.expand s2 now2 code).1 = some u.original_url)
    ∧ (∀ (s2 : URLShortener) (now2 : Int) (code : String) (u : ShortURL),
          s2.storage code = some u → u.expires_at = none →
          Option.map InfoDict.is_expired (URLShortener.get_info s2 now2 code).1
            = some false) :=
  C8_null_expiry_never_expires codec0 engine0 (fun i => i) "id0" 0
    { url := "https://example.com", custom_code := none, expires_hours := none }
    (Or.inl rfl)

/-- The conflict message is never empty (it is human readable). -/
theorem conflictMsg_ne_empty (sc : String) : conflictMsg sc ≠ "" := by
  intro h
  have h2 : (conflictMsg sc).length = 0 := by rw [h]; rfl
  rw [conflictMsg, String.length_append, String.length_append] at h2
  have h3 : ("Short code \x27" : String).length = 12 := rfl
  rw [h3] at h2
  omega

/-- Claim C9: `shorten` is a total function into structured results: every
call returns either a success (no error), or a failure carrying a
nonempty human-readable reason together with the offending input URL
echoed back; no exception can propagate. -/
theorem C9_structured_result (c : PayloadCodec) (s : URLShortener) (rand : Nat → Nat)
    (newId : String) (now : Int) (req : ShortenRequest) :
    ((URLShortener.shorten c s rand newId now req).1.success = true
      ∧ (URLShortener.shorten c s rand newId now req).1.error = none)
    ∨ ((URLShortener.shorten c s rand newId now req).1.success = false
      ∧ ∃ m, (URLShortener.shorten c s rand newId now req).1.error = some m
           ∧ m ≠ ""
           ∧ (URLShortener.shorten c s rand newId now req).1.original_url = req.url) := by
  by_cases hv : URLShortener._is_valid_url req.url = true
  · by_cases hf : MemoryStorage.exists s.storage
        (pyOr req.custom_code (URLShortener._generate_code s.default_code_length rand)) = true
    · right
      have heq : URLShortener.shorten c s rand newId now req
          = (ShortenResponse.error_response
              (conflictMsg (pyOr req.custom_code
                (URLShortener._generate_code s.default_code_length rand))) req.url, s) := by
        simp [URLShortener.shorten, hv, hf]
      rw [heq]
      exact ⟨rfl, conflictMsg _, rfl, conflictMsg_ne_empty _, rfl⟩
    · left
      have hf2 : MemoryStorage.exists s.storage
          (pyOr req.custom_code (URLShortener._generate_code s.default_code_length rand)) = false := by
        simpa using hf
      rw [shorten_success_eq c s rand newId now req hv hf2]
      exact ⟨rfl, rfl⟩
  · right
    have hv2 : URLShortener._is_valid_url req.url = false := by simpa using hv
    have heq : URLShortener.shorten c s rand newId now req
        = (ShortenResponse.error_response "Invalid URL provided" req.url, s) := by
      simp [URLShortener.shorten, hv2]
    rw [heq]
    refine ⟨rfl, "Invalid URL provided", rfl, by decide, rfl⟩

/-- Claim C10: a shorten request with the empty string as custom code
behaves exactly as one with no custom code (Python `or` treats the empty
string as falsy), and the generated code has the configured default
length with every character drawn from the alphanumeric alphabet. -/
theorem C10_empty_custom_code (c : PayloadCodec) (s : URLShortener) (rand : Nat → Nat)
    (newId : String) (now : Int) (url : String) (eh : Option Int) :
    URLShortener.shorten c s rand newId now
        { url := url, custom_code := some "", expires_hours := eh }
      = URLShortener.shorten c s rand newId now
        { url := url, custom_code := none, expires_hours := eh }
    ∧ (URLShortener._generate_code s.default_code_length rand).length
        = s.default_code_length
    ∧ ∀ ch ∈ (URLShortener._generate_code s.default_code_length rand).toList,
        ch ∈ alphabetChars := by
  refine ⟨rfl, ?_, ?_⟩
  · rw [URLShortener._generate_code, List.length_asString, List.length_map,
      List.length_range]
  · intro ch hch
    rw [URLShortener._generate_code, List.toList_asString] at hch
    obtain ⟨i, _, heq⟩ := List.mem_map.mp hch
    have hlt : rand i % alphabetChars.length < alphabetChars.length :=
      Nat.mod_lt _ (by decide)
    rw [← heq, List.getD_eq_getElem _ _ hlt]
    exact List.getElem_mem hlt
